import Mathlib

/-
Verification development for the design-analysis repository.

The Lean definitions below are a shallow embedding of the Python sources:
  - agentic_analysis.py        (five stage functions and their rule-based fallbacks)
  - hybrid_agentic_analysis.py (hybrid chunking stage and its post-parse id fix-up)
  - dynamodb_tracker.py        (DynamoDBTracker: create / update_step_status /
                                update_result_data, modelled as pure updates on a record)
  - api_s3.py                  (run_analysis_async background task, modelled as a
                                function from the outcome of the analysis call to the
                                persisted result record)

Python floats appearing as score constants are embedded as rationals; the external
language-model call is embedded as an explicit parameter carrying the parse outcome of
its reply (an Option: parse failure triggers the rule-based fallback, exactly as the
try/except blocks in the sources do); uuid-generated fresh identifiers are embedded as
an explicit id-supply function Nat -> String.
-/

namespace DA

/-- Python substring test: needle in hay, true iff needle occurs contiguously in hay
(the empty needle always occurs). Used for every occurrence of the in operator on
strings in the fallback code. -/
def strIn (needle hay : String) : Bool :=
  hay.toList.tails.any (fun t => needle.toList.isPrefixOf t)

/-- Python str.lower on one character (the inputs in question are ASCII, where
lower maps A-Z to a-z and fixes everything else). -/
def pyLowerChar (c : Char) : Char :=
  if 'A' ≤ c ∧ c ≤ 'Z' then Char.ofNat (c.toNat + 32) else c

/-- Python str.lower. -/
def pyLower (s : String) : String :=
  String.mk (s.toList.map pyLowerChar)

/-- Python whitespace test used by str.strip with no argument (the ASCII whitespace
characters: space, tab, newline, carriage return, vertical tab, form feed). -/
def pyIsSpace (c : Char) : Bool :=
  c = ' ' ∨ c = '\t' ∨ c = '\n' ∨ c = '\r' ∨ c = Char.ofNat 11 ∨ c = Char.ofNat 12

/-- Python str.strip on a character list: drop whitespace from both ends. -/
def pyStripChars (cs : List Char) : List Char :=
  ((cs.dropWhile pyIsSpace).reverse.dropWhile pyIsSpace).reverse

/-- Python str.split on a single newline separator: every newline is a cut point,
and empty segments are kept (they are filtered out afterwards by the caller). -/
def splitNlAux : List Char → List Char → List (List Char)
  | [], acc => [acc.reverse]
  | c :: rest, acc =>
    if c = '\n' then acc.reverse :: splitNlAux rest []
    else splitNlAux rest (c :: acc)

/-- Python [line.strip() for line in s.split(chr 10) if line.strip()], the line
preprocessing of the rule-based chunking fallback (agentic_analysis.py lines 124-125). -/
def pyLines (s : String) : List String :=
  (((splitNlAux s.toList []).map pyStripChars).filter (fun l => l ≠ [])).map String.mk

/-- Python chr 32 .join over a list of strings. -/
def pyJoinSpace : List String → String
  | [] => ""
  | [x] => x
  | x :: rest => x ++ " " ++ pyJoinSpace rest

/-- Chunk record (agentic_analysis.py class Chunk, lines 43-50; the fallback dicts at
lines 131-138 carry exactly these keys). Scores are embedded as rationals. -/
structure ChunkR where
  id : String
  content : String
  source : String
  type : String
  confidence : ℚ
  tags : List String
deriving DecidableEq, Repr

/-- Inference record (agentic_analysis.py class Inference, lines 53-58). -/
structure InferenceR where
  chunk_id : String
  meanings : List String
  importance : String
  context : String
  confidence : ℚ
deriving DecidableEq, Repr

/-- Pattern record (agentic_analysis.py class Pattern, lines 61-66). -/
structure PatternR where
  name : String
  description : String
  related_inferences : List String
  themes : List String
  strength : ℚ
deriving DecidableEq, Repr

/-- Insight record (agentic_analysis.py class Insight, lines 69-75). -/
structure InsightR where
  headline : String
  explanation : String
  pattern_id : String
  non_consensus : Bool
  first_principles : Bool
  impact_score : ℚ
deriving DecidableEq, Repr

/-- DesignPrinciple record (agentic_analysis.py class DesignPrinciple, lines 78-83). -/
structure PrincipleR where
  principle : String
  insight_id : String
  action_verbs : List String
  design_direction : String
  priority : ℚ
deriving DecidableEq, Repr

/-- Rule-based chunking fallback (agentic_analysis.py lines 122-138, identical in
hybrid_agentic_analysis.py lines 327-344): one chunk per non-blank stripped line,
type quote iff the line contains a double-quote character, tags user_feedback iff
the lowercased line contains user, confidence 0.85. The uuid-based fresh id for the
i-th line is supplied by newId i. -/
def chunkFallback (newId : Nat → String) (researchData : String) : List ChunkR :=
  (pyLines researchData).enum.map fun p =>
    { id := newId p.1
      content := p.2
      source := "research_data"
      type := if strIn "\"" p.2 then "quote" else "observation"
      confidence := 85/100
      tags := if strIn "user" (pyLower p.2) then ["user_feedback"] else ["general"] }

/-- One inference of the rule-based inference fallback (agentic_analysis.py lines
185-207): keyword matching on the lowercased chunk content. -/
def inferFallbackOne (c : ChunkR) : InferenceR :=
  let content := pyLower c.content
  let ms :=
    (if strIn "quick" content || strIn "fast" content then
      ["Users prioritize speed and efficiency"] else []) ++
    (if strIn "cluttered" content || strIn "complex" content then
      ["Users struggle with complexity"] else []) ++
    (if strIn "simple" content then ["Users prefer simplicity"] else [])
  { chunk_id := c.id
    meanings := if ms.isEmpty then ["Users have specific needs and preferences"] else ms
    importance := "Reveals user behavior patterns and needs"
    context := "Indicates fundamental user preferences"
    confidence := 88/100 }

/-- Rule-based inference fallback: one inference per chunk, in chunk order
(agentic_analysis.py lines 186-207). -/
def inferFallback (chunks : List ChunkR) : List InferenceR :=
  chunks.map inferFallbackOne

/-- Python chr 32 join of an inference's meanings, lowercased
(agentic_analysis.py line 261). -/
def meaningsTextLower (inf : InferenceR) : String :=
  pyLower (pyJoinSpace inf.meanings)

/-- Efficiency keyword test of the pattern fallback (agentic_analysis.py line 262). -/
def isEfficiencySignal (inf : InferenceR) : Bool :=
  ["speed", "efficient", "quick", "fast"].any (fun w => strIn w (meaningsTextLower inf))

/-- Clarity keyword test of the pattern fallback (agentic_analysis.py line 264). -/
def isClaritySignal (inf : InferenceR) : Bool :=
  ["complex", "cluttered", "simple", "clear"].any (fun w => strIn w (meaningsTextLower inf))

/-- Rule-based pattern fallback (agentic_analysis.py lines 255-284): collect the
chunk_ids of efficiency-signalling and clarity-signalling inferences, and emit the
respective named pattern for each non-empty group. -/
def relateFallback (infs : List InferenceR) : List PatternR :=
  let efficiencyIds := (infs.filter isEfficiencySignal).map (·.chunk_id)
  let clarityIds := (infs.filter isClaritySignal).map (·.chunk_id)
  (if efficiencyIds.isEmpty then [] else
    [{ name := "User Efficiency Needs"
       description := "Users consistently seek ways to complete tasks more efficiently"
       related_inferences := efficiencyIds
       themes := ["efficiency", "speed", "productivity"]
       strength := 89/100 }]) ++
  (if clarityIds.isEmpty then [] else
    [{ name := "Information Clarity"
       description := "Users struggle with unclear or complex information presentation"
       related_inferences := clarityIds
       themes := ["clarity", "simplicity", "communication"]
       strength := 87/100 }])

/-- Insights contributed by one pattern in the rule-based insight fallback
(agentic_analysis.py lines 337-356): one insight when the lowercased pattern name
contains efficiency, one when it contains clarity, none otherwise. -/
def explainFallbackOne (p : PatternR) : List InsightR :=
  if strIn "efficiency" (pyLower p.name) then
    [{ headline := "USERS PRIORITIZE SPEED OVER FEATURES"
       explanation := "Despite having access to advanced features, users consistently choose the fastest path to completion."
       pattern_id := p.name
       non_consensus := true
       first_principles := true
       impact_score := 93/100 }]
  else if strIn "clarity" (pyLower p.name) then
    [{ headline := "COMPLEXITY CREATES COGNITIVE BARRIERS"
       explanation := "When information is presented in complex ways, users disengage rather than invest effort to understand."
       pattern_id := p.name
       non_consensus := false
       first_principles := true
       impact_score := 91/100 }]
  else []

/-- Rule-based insight fallback over all patterns (agentic_analysis.py lines 337-356).
Python appends per pattern inside a loop; this is the concatenation of the per-pattern
contributions in pattern order. -/
def explainFallback (ps : List PatternR) : List InsightR :=
  ps.flatMap explainFallbackOne

/-- Design principles contributed by one insight in the rule-based principle fallback
(agentic_analysis.py lines 405-422): keyed on the insight headline, priority copied
from the insight impact_score. -/
def activateFallbackOne (i : InsightR) : List PrincipleR :=
  if strIn "SPEED OVER FEATURES" i.headline then
    [{ principle := "The system should prioritize speed and efficiency over feature complexity"
       insight_id := i.headline
       action_verbs := ["prioritize", "simplify", "streamline"]
       design_direction := "Focus on reducing steps and eliminating unnecessary complexity"
       priority := i.impact_score }]
  else if strIn "COGNITIVE BARRIERS" i.headline then
    [{ principle := "The experience must present information with maximum clarity and minimal cognitive load"
       insight_id := i.headline
       action_verbs := ["clarify", "simplify", "reduce"]
       design_direction := "Use progressive disclosure and clear visual hierarchy"
       priority := i.impact_score }]
  else []

/-- Rule-based design-principle fallback over all insights
(agentic_analysis.py lines 405-422). -/
def activateFallback (insights : List InsightR) : List PrincipleR :=
  insights.flatMap activateFallbackOne

/-- Parse outcome of the five model replies of one run. A none entry means the
JsonOutputParser parse of that stage raised, sending the stage into its rule-based
fallback; a some entry carries the parsed records, which the stage returns as-is. -/
structure ParseOutcomes where
  chunksP : Option (List ChunkR)
  inferencesP : Option (List InferenceR)
  patternsP : Option (List PatternR)
  insightsP : Option (List InsightR)
  principlesP : Option (List PrincipleR)

/-- The run in which every parse raises, so every stage takes its fallback path. -/
def allFallback : ParseOutcomes :=
  ⟨none, none, none, none, none⟩

/-- Stage 1 of agentic_analysis.py (chunk_research_data, lines 88-145): return the
parsed chunks unchanged on parse success, else the rule-based fallback chunks. No
post-processing (and in particular no clamping of confidence) is applied to parsed
records. -/
def chunk_research_data (parsed : Option (List ChunkR)) (newId : Nat → String)
    (researchData : String) : List ChunkR :=
  match parsed with
  | some cs => cs
  | none => chunkFallback newId researchData

/-- Stage 2 of agentic_analysis.py (infer_meanings, lines 148-214). -/
def infer_meanings (parsed : Option (List InferenceR)) (chunks : List ChunkR) :
    List InferenceR :=
  match parsed with
  | some xs => xs
  | none => inferFallback chunks

/-- Stage 3 of agentic_analysis.py (relate_patterns, lines 217-291). -/
def relate_patterns (parsed : Option (List PatternR)) (infs : List InferenceR) :
    List PatternR :=
  match parsed with
  | some xs => xs
  | none => relateFallback infs

/-- Stage 4 of agentic_analysis.py (explain_insights, lines 294-363). -/
def explain_insights (parsed : Option (List InsightR)) (ps : List PatternR) :
    List InsightR :=
  match parsed with
  | some xs => xs
  | none => explainFallback ps

/-- Stage 5 of agentic_analysis.py (activate_design_principles, lines 366-429). -/
def activate_design_principles (parsed : Option (List PrincipleR))
    (insights : List InsightR) : List PrincipleR :=
  match parsed with
  | some xs => xs
  | none => activateFallback insights

/-- The five result lists plus the final current_step of one pipeline run
(agentic_analysis.py DesignAnalysisState). -/
structure AnalysisResult where
  chunks : List ChunkR
  inferences : List InferenceR
  patterns : List PatternR
  insights : List InsightR
  design_principles : List PrincipleR
  current_step : String
deriving DecidableEq, Repr

/-- The full agentic pipeline (agentic_analysis.py run_agentic_analysis plus
create_agentic_graph, lines 432-472): the linear chunk, infer, relate, explain,
activate chain; the final node sets current_step to completed. -/
def run_agentic_analysis (po : ParseOutcomes) (newId : Nat → String)
    (researchData : String) : AnalysisResult :=
  let chunks := chunk_research_data po.chunksP newId researchData
  let inferences := infer_meanings po.inferencesP chunks
  let patterns := relate_patterns po.patternsP inferences
  let insights := explain_insights po.insightsP patterns
  let dps := activate_design_principles po.principlesP insights
  ⟨chunks, inferences, patterns, insights, dps, "completed"⟩

/-- Reference integrity of a completed run, as stated in the spec: every inference
references a chunk of the run, every pattern entry references an inference chunk_id,
every insight references a pattern name, every design principle references an insight
headline. -/
def refIntegrity (r : AnalysisResult) : Prop :=
  (∀ inf ∈ r.inferences, ∃ c ∈ r.chunks, c.id = inf.chunk_id) ∧
  (∀ p ∈ r.patterns, ∀ cid ∈ p.related_inferences, ∃ inf ∈ r.inferences, inf.chunk_id = cid) ∧
  (∀ i ∈ r.insights, ∃ p ∈ r.patterns, p.name = i.pattern_id) ∧
  (∀ dp ∈ r.design_principles, ∃ i ∈ r.insights, i.headline = dp.insight_id)

/-- The two-line input of the end-to-end fallback scenario. -/
def twoLineInput : String :=
  "I just want to get this done quickly.\nThe interface is cluttered."

/-- A concrete chunk as a chunk-stage parse could yield it. -/
def cexChunk : ChunkR :=
  ⟨"c1", "I just want to get this done quickly.", "research_data", "observation",
    85/100, ["general"]⟩

/-- A concrete inference whose chunk_id references no chunk of the run, as an
unvalidated inference-stage parse can yield it. -/
def cexInference : InferenceR :=
  ⟨"bogus", ["Users prioritize speed and efficiency"],
    "Reveals user behavior patterns and needs",
    "Indicates fundamental user preferences", 9/10⟩

/-- Parse outcomes of a run in which the chunk and inference replies parse (into
cexChunk and cexInference) and the later stages fall back. -/
def cexOutcomes : ParseOutcomes :=
  { chunksP := some [cexChunk]
    inferencesP := some [cexInference]
    patternsP := none
    insightsP := none
    principlesP := none }

/-- The five tracking step names (dynamodb_tracker.py, keys of steps_status in
create_analysis_request, lines 182-223). All update_step_status call sites in
hybrid_agentic_analysis.py use exactly these names. -/
inductive StepName where
  | chunking
  | inferring
  | relating
  | explaining
  | activating
deriving DecidableEq, Repr

/-- Step status enum (dynamodb_tracker.py class StepStatus, lines 33-38). -/
inductive StepStatus where
  | pending
  | processing
  | completed
  | failed
deriving DecidableEq, Repr

/-- The string value stored for a status (the .value of the Python enum). -/
def statusValue : StepStatus → String
  | .pending => "pending"
  | .processing => "processing"
  | .completed => "completed"
  | .failed => "failed"

/-- One step entry of a tracking record: status, message and the two timestamps
(dynamodb_tracker.py, the per-step maps of steps_status). A NULL DynamoDB attribute
is embedded as none. -/
structure StepR where
  status : String
  message : String
  started_at : Option String
  completed_at : Option String
deriving DecidableEq, Repr

/-- A tracking-table item (dynamodb_tracker.py create_analysis_request, lines
225-238): request_id key, research_data pointer, the nested analysis_result map
(result_data plus the five steps), the two item timestamps and overall_status. -/
structure TrackRecord where
  request_id : String
  research_data : String
  result_data : String
  chunking : StepR
  inferring : StepR
  relating : StepR
  explaining : StepR
  activating : StepR
  created_at : String
  updated_at : String
  overall_status : String
deriving DecidableEq, Repr

/-- Read the named step entry of a record. -/
def getStep (r : TrackRecord) : StepName → StepR
  | .chunking => r.chunking
  | .inferring => r.inferring
  | .relating => r.relating
  | .explaining => r.explaining
  | .activating => r.activating

/-- Replace the named step entry of a record, leaving every other field unchanged. -/
def setStep (r : TrackRecord) (st : StepName) (s : StepR) : TrackRecord :=
  match st with
  | .chunking => { r with chunking := s }
  | .inferring => { r with inferring := s }
  | .relating => { r with relating := s }
  | .explaining => { r with explaining := s }
  | .activating => { r with activating := s }

/-- The fresh item written by create_analysis_request (dynamodb_tracker.py lines
182-238): all five steps pending with their fixed waiting messages and NULL
timestamps, empty result_data, overall_status pending; now stands for the
datetime.utcnow().isoformat() timestamps. -/
def newTrackRecord (request_id research_data_s3_path now : String) : TrackRecord :=
  { request_id := request_id
    research_data := research_data_s3_path
    result_data := ""
    chunking := ⟨"pending", "Waiting to start chunking", none, none⟩
    inferring := ⟨"pending", "Waiting for chunking to complete", none, none⟩
    relating := ⟨"pending", "Waiting for inference to complete", none, none⟩
    explaining := ⟨"pending", "Waiting for pattern analysis to complete", none, none⟩
    activating := ⟨"pending", "Waiting for explanation to complete", none, none⟩
    created_at := now
    updated_at := now
    overall_status := "pending" }

/-- The tracking table, keyed by request_id. -/
def Store : Type := String → Option TrackRecord

/-- DynamoDB put_item: unconditionally writes the item under its key, replacing any
existing item (dynamodb_tracker.py line 240 issues put_item with no
ConditionExpression). -/
def putItem (s : Store) (key : String) (item : TrackRecord) : Store :=
  fun k => if k = key then some item else s k

/-- DynamoDBTracker.create_analysis_request (dynamodb_tracker.py lines 176-247):
builds the fresh all-pending item and put_items it, then returns True. The
surrounding try/except only turns storage exceptions into False; the put itself has
no condition, so an existing item under the same request_id is replaced. -/
def create_analysis_request (s : Store) (request_id research_data_s3_path now : String) :
    Store × Bool :=
  (putItem s request_id (newTrackRecord request_id research_data_s3_path now), true)

/-- DynamoDBTracker.update_step_status (dynamodb_tracker.py lines 249-338) as a pure
update of the addressed item: sets the named step status and message; adds started_at
when the new status is processing; adds completed_at when it is completed or failed;
and exactly when the step is activating and the status completed, additionally sets
overall_status to completed and result_data to result_s3_path or the empty string.
updated_at is set in every case; now stands for the single timestamp value the
method computes. -/
def update_step_status (r : TrackRecord) (stepName : StepName) (status : StepStatus)
    (message : String) (result_s3_path : Option String) (now : String) : TrackRecord :=
  let s0 := getStep r stepName
  let s1 := { s0 with status := statusValue status, message := message }
  let s2 := if status = StepStatus.processing then { s1 with started_at := some now } else s1
  let s3 := if status = StepStatus.completed ∨ status = StepStatus.failed then
    { s2 with completed_at := some now } else s2
  let r1 := setStep r stepName s3
  if stepName = StepName.activating ∧ status = StepStatus.completed then
    { r1 with overall_status := "completed"
              result_data := result_s3_path.getD ""
              updated_at := now }
  else
    { r1 with updated_at := now }

/-- DynamoDBTracker.update_result_data (dynamodb_tracker.py lines 340-377): the
update expression sets only analysis_result.result_data and updated_at. -/
def update_result_data (r : TrackRecord) (result_s3_path : String) (now : String) :
    TrackRecord :=
  { r with result_data := result_s3_path, updated_at := now }

/-- The public methods DynamoDBTracker defines (dynamodb_tracker.py lines 41-491).
There is no update_overall_status among them, which is what api_s3.py line 728
tries to call. -/
def dynamoDBTrackerMethods : List String :=
  ["create_analysis_request", "update_step_status", "update_result_data",
   "get_analysis_status", "list_analysis_requests", "delete_analysis_request",
   "get_table_info"]

/-- The failure branch of run_analysis_async (api_s3.py lines 722-731) restricted to
its tracker effect: it invokes tracker.update_overall_status(request_id, "failed").
Python attribute dispatch looks the name up among the methods of DynamoDBTracker; the
name is absent, so the call raises AttributeError, the inner except swallows it, and
the store is left untouched. The then-branch writes what the call site intends. -/
def run_analysis_async_failed_handler (s : Store) (request_id : String) : Store :=
  if dynamoDBTrackerMethods.contains "update_overall_status" then
    fun k => if k = request_id then
      (s k).map (fun r => { r with overall_status := "failed" }) else s k
  else s

/-- The keyword parameters accepted by run_hybrid_agentic_analysis
(hybrid_agentic_analysis.py line 800: research_data, request_id,
research_data_s3_path; there is no kwargs catch-all). -/
def runHybridParamNames : List String :=
  ["research_data", "request_id", "research_data_s3_path"]

/-- The keyword arguments of the call api_s3.py lines 667-668:
run_hybrid_agentic_analysis(research_data, request_id, research_data_s3_path,
save_to_s3=True). -/
def hybridCallKwargNames : List String :=
  ["save_to_s3"]

/-- Python exceptions relevant to the embedded paths. -/
inductive PyError where
  | typeError
  | attributeError
deriving DecidableEq, Repr

/-- CPython keyword-call check: a call with a keyword argument whose name is not
among the parameters of a function without a kwargs catch-all raises TypeError. -/
def pyKeywordCall (paramNames kwargNames : List String) (ret : AnalysisResult) :
    Except PyError AnalysisResult :=
  if kwargNames.all paramNames.contains then .ok ret else .error .typeError

/-- The outcome of the analysis call inside run_analysis_async (api_s3.py lines
660-672). The three implementation results are parameters standing for what the
respective pipeline would return if the call completed; only the hybrid branch passes
the extra save_to_s3 keyword. -/
def run_analysis_async_callOutcome (implementation : String)
    (hybridResult openaiResult langchainResult : AnalysisResult) :
    Except PyError AnalysisResult :=
  if implementation = "openai" then .ok openaiResult
  else if implementation = "hybrid" then
    pyKeywordCall runHybridParamNames hybridCallKwargNames hybridResult
  else .ok langchainResult

/-- The persisted result record of one request (api_s3.py class AnalysisResponse as
populated in run_analysis_async; the wall-clock timestamp string is omitted and the
measured execution time is a parameter). -/
structure AnalysisResponseR where
  request_id : String
  status : String
  implementation : String
  chunks : List ChunkR
  inferences : List InferenceR
  patterns : List PatternR
  insights : List InsightR
  design_principles : List PrincipleR
  execution_time : ℚ
deriving DecidableEq, Repr

/-- The record run_analysis_async persists (api_s3.py lines 672-750): on a completed
analysis call, status completed with the five result lists; when the call raises, the
except handler stores status error with all five lists empty and execution_time 0. -/
def run_analysis_async_stored (request_id implementation : String)
    (hybridResult openaiResult langchainResult : AnalysisResult) (execTime : ℚ) :
    AnalysisResponseR :=
  match run_analysis_async_callOutcome implementation hybridResult openaiResult
      langchainResult with
  | .ok r =>
    { request_id := request_id
      status := "completed"
      implementation := implementation
      chunks := r.chunks
      inferences := r.inferences
      patterns := r.patterns
      insights := r.insights
      design_principles := r.design_principles
      execution_time := execTime }
  | .error _ =>
    { request_id := request_id
      status := "error"
      implementation := implementation
      chunks := []
      inferences := []
      patterns := []
      insights := []
      design_principles := []
      execution_time := 0 }

/-- A parsed model chunk in the hybrid chunking stage. langchain JsonOutputParser
returns plain parsed JSON, so a successful parse yields builtin dict objects; the
dict payload is embedded as its key-value pairs. -/
abbrev PyDict : Type := List (String × String)

/-- CPython hasattr on a builtin dict instance for the attribute id: dict exposes no
such attribute, so this is False whatever the dict holds. -/
def pyDictHasAttrId (_ : PyDict) : Bool :=
  false

/-- CPython attribute assignment on a builtin dict instance: dict has no instance
dictionary for arbitrary attributes, so the assignment raises AttributeError. -/
def pySetAttrIdOnDict (_ : PyDict) (_ : String) : Except PyError PyDict :=
  .error .attributeError

/-- The value the chunk parse of the hybrid chunking stage yields when it succeeds
with dict-shaped JSON: a single dict or an array of dicts. -/
inductive PyParsedChunks where
  | single (d : PyDict)
  | array (ds : List PyDict)
deriving DecidableEq, Repr

/-- The isinstance(parsed, list) wrapping (hybrid_agentic_analysis.py lines 306-308):
a non-list parse result becomes the singleton list. -/
def parsedAsList : PyParsedChunks → List PyDict
  | .single d => [d]
  | .array ds => ds

/-- The post-parse id fix-up loop (hybrid_agentic_analysis.py lines 310-313): for
each chunk, if not hasattr(chunk, id-attribute) (True for a dict, short-circuiting
the or) assign chunk.id, which on a dict raises. newId n supplies the uuid hex the
n-th assignment would use. -/
def ensureChunkIds (newId : Nat → String) : Nat → List PyDict → Except PyError Unit
  | _, [] => .ok ()
  | n, d :: ds =>
    if pyDictHasAttrId d then ensureChunkIds newId (n+1) ds
    else
      match pySetAttrIdOnDict d (newId n) with
      | .ok _ => ensureChunkIds newId (n+1) ds
      | .error e => .error e

/-- What the hybrid chunking stage returns for the chunks key of the state. -/
inductive HybridChunkOutcome where
  | parsedChunks (ds : List PyDict)
  | fallbackChunks (cs : List ChunkR)
deriving DecidableEq, Repr

/-- The hybrid chunking stage (hybrid_agentic_analysis.py chunk_research_data, lines
258-356), restricted to its data path: the try block parses the reply (parsed = none
embeds a parse exception), wraps a non-list result, then runs the id fix-up loop; any
exception inside the try sends the stage to the same rule-based line-split fallback
as agentic_analysis.py. -/
def hybrid_chunk_research_data (parsed : Option PyParsedChunks) (newId : Nat → String)
    (researchData : String) : HybridChunkOutcome :=
  match parsed with
  | none => .fallbackChunks (chunkFallback newId researchData)
  | some v =>
    match ensureChunkIds newId 0 (parsedAsList v) with
    | .ok _ => .parsedChunks (parsedAsList v)
    | .error _ => .fallbackChunks (chunkFallback newId researchData)

/-- One tracker write of a run: the step addressed, the status written and the
message passed (the update_step_status call sites in hybrid_agentic_analysis.py). -/
structure TrackWrite where
  step : StepName
  status : StepStatus
  message : String
deriving DecidableEq, Repr

/-- The five initial pending entries written when the run's tracking record is
created (dynamodb_tracker.py lines 182-223). -/
def creationTrace : List TrackWrite :=
  [⟨.chunking, .pending, "Waiting to start chunking"⟩,
   ⟨.inferring, .pending, "Waiting for chunking to complete"⟩,
   ⟨.relating, .pending, "Waiting for inference to complete"⟩,
   ⟨.explaining, .pending, "Waiting for pattern analysis to complete"⟩,
   ⟨.activating, .pending, "Waiting for explanation to complete"⟩]

/-- The tracker writes of one hybrid stage function: processing on entry, completed
at the end of the branch taken (both the try block and the fallback branch end in a
completed write, with branch-specific messages; no call site ever writes failed).
procMsg and doneMsg stand for the messages of the branch the stage took. -/
def stageTrace (st : StepName) (procMsg doneMsg : String) : List TrackWrite :=
  [⟨st, .processing, procMsg⟩, ⟨st, .completed, doneMsg⟩]

/-- The full write trace of one hybrid run (run_hybrid_agentic_analysis: record
creation, then the five stage functions in graph order chunk, infer, relate, explain,
activate). msgs st gives the processing and completed messages of step st for the
branch taken. -/
def hybridRunTrace (msgs : StepName → String × String) : List TrackWrite :=
  creationTrace ++
  stageTrace .chunking (msgs .chunking).1 (msgs .chunking).2 ++
  stageTrace .inferring (msgs .inferring).1 (msgs .inferring).2 ++
  stageTrace .relating (msgs .relating).1 (msgs .relating).2 ++
  stageTrace .explaining (msgs .explaining).1 (msgs .explaining).2 ++
  stageTrace .activating (msgs .activating).1 (msgs .activating).2

/-- The statuses written to one step over a trace, in order. -/
def stepStatusSeq (tr : List TrackWrite) (st : StepName) : List StepStatus :=
  (tr.filter (fun w => w.step == st)).map (·.status)

/-- Rank of a status in the forward order pending, processing, terminal. -/
def statusRank : StepStatus → Nat
  | .pending => 0
  | .processing => 1
  | .completed => 2
  | .failed => 2

/-- A store holding one pending tracking record, used to evaluate the failure
handler on a concrete state. -/
def demoStore : Store :=
  fun k => if k = "r1" then some (newTrackRecord "r1" "s3://bucket/data.txt" "t0") else none

/-- C4: update_step_status sets the named step's status and message to the given
values; started_at is set to the current timestamp exactly when the status is
processing (otherwise unchanged); completed_at exactly when it is completed or
failed; and overall_status is additionally set to completed exactly when the step is
activating and the status completed (otherwise unchanged). -/
theorem update_step_status_fields (r : TrackRecord) (st : StepName)
    (status : StepStatus) (msg : String) (path : Option String) (now : String) :
    (getStep (update_step_status r st status msg path now) st).status = statusValue status ∧
    (getStep (update_step_status r st status msg path now) st).message = msg ∧
    (getStep (update_step_status r st status msg path now) st).started_at =
      (if status = StepStatus.processing then some now else (getStep r st).started_at) ∧
    (getStep (update_step_status r st status msg path now) st).completed_at =
      (if status = StepStatus.completed ∨ status = StepStatus.failed then some now
       else (getStep r st).completed_at) ∧
    (update_step_status r st status msg path now).overall_status =
      (if st = StepName.activating ∧ status = StepStatus.completed then "completed"
       else r.overall_status) := by
  cases st <;> cases status <;>
    simp [update_step_status, getStep, setStep, statusValue]

/-- C10: completing the final step clobbers the result pointer: update_step_status
on step activating with status completed writes result_data to the given path or to
the empty string when no path is supplied, whatever was stored there before; whereas
update_result_data changes only the result_data and updated_at fields of the record,
leaving every step and overall_status unchanged. -/
theorem activating_completed_result_data_frame (r : TrackRecord) (msg : String)
    (path : Option String) (now p now2 : String) :
    (update_step_status r StepName.activating StepStatus.completed msg path now).result_data =
      path.getD "" ∧
    update_result_data r p now2 = { r with result_data := p, updated_at := now2 } := by
  constructor
  · simp [update_step_status, setStep]
  · rfl

/-- C5 counterexample: with a record already stored under r1, create_analysis_request
still reports success and replaces the stored record with the fresh all-pending one;
it is not a no-op and reports no error. -/
theorem create_request_overwrites_cex :
    (create_analysis_request demoStore "r1" "s3://bucket/other.txt" "t1").2 = true ∧
    (create_analysis_request demoStore "r1" "s3://bucket/other.txt" "t1").1 "r1" =
      some (newTrackRecord "r1" "s3://bucket/other.txt" "t1") ∧
    (create_analysis_request demoStore "r1" "s3://bucket/other.txt" "t1").1 "r1" ≠
      demoStore "r1" := by
  refine ⟨rfl, rfl, ?_⟩
  simp [create_analysis_request, putItem, demoStore, newTrackRecord]

/-- C5 amended: create_analysis_request inserts the fresh record whose five steps are
all pending and whose overall_status is pending, and reports success; when a record
already exists under the request_id it is silently replaced by the unconditional
put_item rather than the operation failing as a no-op. -/
theorem create_request_pending_upsert (s : Store) (rid path now : String) :
    (create_analysis_request s rid path now).2 = true ∧
    (create_analysis_request s rid path now).1 rid = some (newTrackRecord rid path now) ∧
    (∀ st : StepName, (getStep (newTrackRecord rid path now) st).status = "pending") ∧
    (newTrackRecord rid path now).overall_status = "pending" := by
  refine ⟨rfl, by simp [create_analysis_request, putItem], ?_, rfl⟩
  intro st
  cases st <;> rfl

/-- C2 evaluation: the failure branch of run_analysis_async leaves the tracking
store untouched, because DynamoDBTracker defines no update_overall_status method and
the AttributeError the call raises is swallowed; in particular a record that was
pending before the handler still has overall_status pending, not failed. -/
theorem failed_handler_leaves_overall_status :
    (∀ (s : Store) (rid : String), run_analysis_async_failed_handler s rid = s) ∧
    ((run_analysis_async_failed_handler demoStore "r1") "r1").map
      (fun r => r.overall_status) = some "pending" := by
  constructor
  · intro s rid
    rfl
  · rfl

/-- C1: every analysis request submitted through the S3-backed API with
implementation hybrid makes run_analysis_async raise TypeError at the
run_hybrid_agentic_analysis call (the keyword argument save_to_s3 is not among the
function's parameters), so whatever the hybrid pipeline would have returned, the
persisted result record has status error and all five result lists empty. -/
theorem hybrid_api_error_path (rid : String)
    (hybridResult openaiResult langchainResult : AnalysisResult) (execTime : ℚ) :
    run_analysis_async_callOutcome "hybrid" hybridResult openaiResult langchainResult =
      Except.error PyError.typeError ∧
    (run_analysis_async_stored rid "hybrid" hybridResult openaiResult langchainResult
      execTime).status = "error" ∧
    (run_analysis_async_stored rid "hybrid" hybridResult openaiResult langchainResult
      execTime).chunks = [] ∧
    (run_analysis_async_stored rid "hybrid" hybridResult openaiResult langchainResult
      execTime).inferences = [] ∧
    (run_analysis_async_stored rid "hybrid" hybridResult openaiResult langchainResult
      execTime).patterns = [] ∧
    (run_analysis_async_stored rid "hybrid" hybridResult openaiResult langchainResult
      execTime).insights = [] ∧
    (run_analysis_async_stored rid "hybrid" hybridResult openaiResult langchainResult
      execTime).design_principles = [] := by
  exact ⟨rfl, rfl, rfl, rfl, rfl, rfl, rfl⟩

/-- C9: in the hybrid chunking stage, whenever the model reply parses successfully
into dict objects (at least one dict is yielded, whether a bare dict or a non-empty
array), the post-parse id fix-up raises AttributeError on the first dict, so the
stage returns the rule-based line-split fallback chunks and never the parsed
chunks. -/
theorem hybrid_chunk_dict_fallback (v : PyParsedChunks) (newId : Nat → String)
    (rd : String) (h : parsedAsList v ≠ []) :
    hybrid_chunk_research_data (some v) newId rd =
      HybridChunkOutcome.fallbackChunks (chunkFallback newId rd) := by
  cases v with
  | single d => rfl
  | array ds =>
    cases ds with
    | nil => exact absurd rfl h
    | cons d ds => rfl

/-- C9 witness: a concrete reply parsing to a one-element array of dicts takes the
fallback path. -/
theorem hybrid_chunk_dict_fallback_witness :
    parsedAsList (PyParsedChunks.array [[("content", "line one")]]) ≠ [] ∧
    hybrid_chunk_research_data (some (PyParsedChunks.array [[("content", "line one")]]))
      (fun _ => "chunk_ab12cd34") "line one" =
      HybridChunkOutcome.fallbackChunks
        (chunkFallback (fun _ => "chunk_ab12cd34") "line one") :=
  ⟨by decide,
   hybrid_chunk_dict_fallback (PyParsedChunks.array [[("content", "line one")]])
     (fun _ => "chunk_ab12cd34") "line one" (by decide)⟩

/-- C8: within a single hybrid run, whatever branch each stage takes, the sequence of
status values written to any tracking step is exactly pending, processing, completed;
hence it is non-decreasing in the order pending, processing, completed and no write
targets a step after it has been set to completed (completed is only ever the final
write to a step). -/
theorem step_status_monotone (msgs : StepName → String × String) (st : StepName) :
    stepStatusSeq (hybridRunTrace msgs) st =
      [StepStatus.pending, StepStatus.processing, StepStatus.completed] ∧
    List.Chain' (fun a b => statusRank a ≤ statusRank b)
      (stepStatusSeq (hybridRunTrace msgs) st) ∧
    (stepStatusSeq (hybridRunTrace msgs) st).count StepStatus.completed = 1 ∧
    (stepStatusSeq (hybridRunTrace msgs) st).getLast? = some StepStatus.completed := by
  cases st <;>
    exact ⟨rfl,
      (by simp [List.chain'_cons, List.chain'_singleton, statusRank] :
        List.Chain' (fun a b => statusRank a ≤ statusRank b)
          [StepStatus.pending, StepStatus.processing, StepStatus.completed]),
      rfl, rfl⟩

/-- C6 counterexample: an out-of-range parsed score is not clamped. A model reply for
the chunking stage that parses into a chunk with confidence 1.5 is returned exactly
as parsed, so the returned records do not all carry scores in the unit interval. -/
theorem parsed_scores_unclamped_cex :
    chunk_research_data
      (some [⟨"chunk_1", "The interface is cluttered.", "research_data", "observation",
        3/2, ["general"]⟩]) (fun _ => "chunk_fb") "data" =
      [⟨"chunk_1", "The interface is cluttered.", "research_data", "observation",
        3/2, ["general"]⟩] ∧
    ¬ (∀ c ∈ chunk_research_data
        (some [⟨"chunk_1", "The interface is cluttered.", "research_data", "observation",
          3/2, ["general"]⟩]) (fun _ => "chunk_fb") "data",
        c.confidence ≤ 1) := by
  refine ⟨rfl, ?_⟩
  intro hall
  have h := hall _ (List.mem_singleton.mpr rfl)
  norm_num at h

/-- C6 amended: no clamping is performed anywhere. Parsed records are returned
exactly as the parser produced them, so out-of-range scores propagate; only the
rule-based fallback records are guaranteed scores in the unit interval: in an
all-fallback run every confidence, strength, impact_score and priority lies in
the unit interval. -/
theorem scores_fallback_in_range (newId : Nat → String) (rd : String)
    (cs : List ChunkR) :
    chunk_research_data (some cs) newId rd = cs ∧
    (∀ c ∈ (run_agentic_analysis allFallback newId rd).chunks,
      0 ≤ c.confidence ∧ c.confidence ≤ 1) ∧
    (∀ i ∈ (run_agentic_analysis allFallback newId rd).inferences,
      0 ≤ i.confidence ∧ i.confidence ≤ 1) ∧
    (∀ p ∈ (run_agentic_analysis allFallback newId rd).patterns,
      0 ≤ p.strength ∧ p.strength ≤ 1) ∧
    (∀ i ∈ (run_agentic_analysis allFallback newId rd).insights,
      0 ≤ i.impact_score ∧ i.impact_score ≤ 1) ∧
    (∀ dp ∈ (run_agentic_analysis allFallback newId rd).design_principles,
      0 ≤ dp.priority ∧ dp.priority ≤ 1) := by
  refine ⟨rfl, ?_, ?_, ?_, ?_, ?_⟩
  · intro c hc
    simp only [run_agentic_analysis, allFallback, chunk_research_data, chunkFallback,
      List.mem_map] at hc
    obtain ⟨p, _, rfl⟩ := hc
    norm_num
  · intro i hi
    simp only [run_agentic_analysis, allFallback, infer_meanings, inferFallback,
      List.mem_map] at hi
    obtain ⟨c, _, rfl⟩ := hi
    simp only [inferFallbackOne]
    norm_num
  · intro p hp
    simp only [run_agentic_analysis, allFallback, relate_patterns, relateFallback,
      List.mem_append] at hp
    rcases hp with hp | hp <;> (split at hp <;> simp_all) <;> norm_num
  · intro i hi
    simp only [run_agentic_analysis, allFallback, explain_insights, explainFallback,
      List.mem_flatMap] at hi
    obtain ⟨p, _, hip⟩ := hi
    simp only [explainFallbackOne] at hip
    split at hip <;> [skip; split at hip] <;> simp_all <;> norm_num
  · intro dp hdp
    simp only [run_agentic_analysis, allFallback, activate_design_principles,
      activateFallback, List.mem_flatMap] at hdp
    obtain ⟨i, hi, hdpi⟩ := hdp
    have himp : 0 ≤ i.impact_score ∧ i.impact_score ≤ 1 := by
      simp only [explain_insights, explainFallback, List.mem_flatMap] at hi
      obtain ⟨p, _, hip⟩ := hi
      simp only [explainFallbackOne] at hip
      split at hip <;> [skip; split at hip] <;> simp_all <;> norm_num
    simp only [activateFallbackOne] at hdpi
    split at hdpi <;> [skip; split at hdpi] <;> simp_all

/-- C7 counterexample: a run completes with an inference whose chunk_id references no
chunk of the run, because parsed model output is never validated against the
predecessor list: with the chunk reply parsing to a chunk with id c1 and the
inference reply parsing to an inference with chunk_id bogus, the run reaches
current_step completed yet violates reference integrity. -/
theorem ref_integrity_cex :
    (run_agentic_analysis cexOutcomes (fun _ => "chunk_fb") "txt").current_step =
      "completed" ∧
    ¬ refIntegrity (run_agentic_analysis cexOutcomes (fun _ => "chunk_fb") "txt") := by
  refine ⟨rfl, ?_⟩
  intro h
  obtain ⟨h1, -, -, -⟩ := h
  obtain ⟨c, hc, hid⟩ := h1 cexInference (by simp [run_agentic_analysis, cexOutcomes,
    infer_meanings])
  simp only [run_agentic_analysis, cexOutcomes, chunk_research_data,
    List.mem_singleton] at hc
  rw [hc] at hid
  exact absurd hid (by decide)

/-- C7 amended: reference integrity holds of every completed all-fallback run (for
every input text and id supply): each fallback inference takes its chunk_id from an
actual chunk, each fallback pattern collects chunk_ids of actual inferences, each
fallback insight names its source pattern and each fallback principle its source
insight headline. It does not hold of parsed model output, which is returned
unvalidated. -/
theorem ref_integrity_fallback (newId : Nat → String) (rd : String) :
    refIntegrity (run_agentic_analysis allFallback newId rd) := by
  refine ⟨?_, ?_, ?_, ?_⟩
  · intro inf hinf
    simp only [run_agentic_analysis, allFallback, infer_meanings, inferFallback,
      List.mem_map] at hinf ⊢
    obtain ⟨c, hc, rfl⟩ := hinf
    exact ⟨c, hc, rfl⟩
  · intro p hp cid hcid
    simp only [run_agentic_analysis, allFallback, relate_patterns, relateFallback,
      List.mem_append] at hp
    simp only [run_agentic_analysis, allFallback]
    rcases hp with hp | hp <;> split at hp <;> simp only [List.mem_singleton,
      List.not_mem_nil] at hp <;> try exact absurd hp (by simp)
    · subst hp
      simp only [List.mem_map, List.mem_filter] at hcid ⊢
      obtain ⟨inf, ⟨hinf, -⟩, rfl⟩ := hcid
      exact ⟨inf, hinf, rfl⟩
    · subst hp
      simp only [List.mem_map, List.mem_filter] at hcid ⊢
      obtain ⟨inf, ⟨hinf, -⟩, rfl⟩ := hcid
      exact ⟨inf, hinf, rfl⟩
  · intro i hi
    simp only [run_agentic_analysis, allFallback, explain_insights, explainFallback,
      List.mem_flatMap] at hi ⊢
    obtain ⟨p, hp, hip⟩ := hi
    refine ⟨p, hp, ?_⟩
    simp only [explainFallbackOne] at hip
    split at hip <;> [skip; split at hip] <;> simp_all
  · intro dp hdp
    simp only [run_agentic_analysis, allFallback, activate_design_principles,
      activateFallback, List.mem_flatMap] at hdp ⊢
    obtain ⟨i, hi, hdpi⟩ := hdp
    refine ⟨i, hi, ?_⟩
    simp only [activateFallbackOne] at hdpi
    split at hdpi <;> [skip; split at hdpi] <;> simp_all

set_option maxHeartbeats 2000000 in
/-- Evaluation of the all-fallback run on the two-line input: the two stripped lines
become chunks with ids newId 0 and newId 1; the inference fallback attaches the
speed meaning to the first and the complexity meaning to the second; the pattern
fallback groups them into the efficiency and clarity patterns; one insight and one
principle follow per pattern. -/
theorem run_two_lines_eval (newId : Nat → String) :
    run_agentic_analysis allFallback newId twoLineInput =
      { chunks :=
          [⟨newId 0, "I just want to get this done quickly.", "research_data",
            "observation", 85/100, ["general"]⟩,
           ⟨newId 1, "The interface is cluttered.", "research_data",
            "observation", 85/100, ["general"]⟩]
        inferences :=
          [⟨newId 0, ["Users prioritize speed and efficiency"],
            "Reveals user behavior patterns and needs",
            "Indicates fundamental user preferences", 88/100⟩,
           ⟨newId 1, ["Users struggle with complexity"],
            "Reveals user behavior patterns and needs",
            "Indicates fundamental user preferences", 88/100⟩]
        patterns :=
          [⟨"User Efficiency Needs",
            "Users consistently seek ways to complete tasks more efficiently",
            [newId 0], ["efficiency", "speed", "productivity"], 89/100⟩,
           ⟨"Information Clarity",
            "Users struggle with unclear or complex information presentation",
            [newId 1], ["clarity", "simplicity", "communication"], 87/100⟩]
        insights :=
          [⟨"USERS PRIORITIZE SPEED OVER FEATURES",
            "Despite having access to advanced features, users consistently choose the fastest path to completion.",
            "User Efficiency Needs", true, true, 93/100⟩,
           ⟨"COMPLEXITY CREATES COGNITIVE BARRIERS",
            "When information is presented in complex ways, users disengage rather than invest effort to understand.",
            "Information Clarity", false, true, 91/100⟩]
        design_principles :=
          [⟨"The system should prioritize speed and efficiency over feature complexity",
            "USERS PRIORITIZE SPEED OVER FEATURES",
            ["prioritize", "simplify", "streamline"],
            "Focus on reducing steps and eliminating unnecessary complexity", 93/100⟩,
           ⟨"The experience must present information with maximum clarity and minimal cognitive load",
            "COMPLEXITY CREATES COGNITIVE BARRIERS",
            ["clarify", "simplify", "reduce"],
            "Use progressive disclosure and clear visual hierarchy", 91/100⟩]
        current_step := "completed" } := by
  rfl

/-- C3: on the two-line input, the all-fallback run produces exactly 2 chunks whose
contents are the two lines; the inference fallback attaches the meaning about speed
and efficiency to the first chunk and the meaning about complexity to the second
(inference i references chunk i); the pattern fallback produces exactly the patterns
named User Efficiency Needs and Information Clarity; and the insight and principle
fallbacks produce exactly one insight and one principle per pattern, with the stated
headlines, in pattern order. -/
theorem fallback_end_to_end_two_lines (newId : Nat → String) :
    (run_agentic_analysis allFallback newId twoLineInput).chunks.length = 2 ∧
    (run_agentic_analysis allFallback newId twoLineInput).chunks.map (·.content) =
      ["I just want to get this done quickly.", "The interface is cluttered."] ∧
    (run_agentic_analysis allFallback newId twoLineInput).inferences.map (·.chunk_id) =
      (run_agentic_analysis allFallback newId twoLineInput).chunks.map (·.id) ∧
    (run_agentic_analysis allFallback newId twoLineInput).inferences.map (·.meanings) =
      [["Users prioritize speed and efficiency"], ["Users struggle with complexity"]] ∧
    (run_agentic_analysis allFallback newId twoLineInput).patterns.map (·.name) =
      ["User Efficiency Needs", "Information Clarity"] ∧
    (run_agentic_analysis allFallback newId twoLineInput).insights.map (·.pattern_id) =
      ["User Efficiency Needs", "Information Clarity"] ∧
    (run_agentic_analysis allFallback newId twoLineInput).insights.map (·.headline) =
      ["USERS PRIORITIZE SPEED OVER FEATURES", "COMPLEXITY CREATES COGNITIVE BARRIERS"] ∧
    (run_agentic_analysis allFallback newId twoLineInput).design_principles.map
        (·.insight_id) =
      ["USERS PRIORITIZE SPEED OVER FEATURES", "COMPLEXITY CREATES COGNITIVE BARRIERS"] ∧
    (run_agentic_analysis allFallback newId twoLineInput).design_principles.length = 2 := by
  rw [run_two_lines_eval]
  exact ⟨rfl, rfl, rfl, rfl, rfl, rfl, rfl, rfl, rfl⟩

end DA
